import Mathlib

/-!
Verification development for the savanti entity-management backend.

We shallowly embed the core subsystems of the repository:

* `src/taskade/client.py` — the remote task gateway and the concurrent
  field aggregator (`get_tasks` / `extract_all_tasks`,
  `get_task_all_fields` / `fetch_field`,
  `fetch_all_entities_with_fields`);
* `src/entities/field_mapper.py` — `FIELD_MAP`, `normalize_field_value`,
  `map_field_values`;
* `src/entities/cache.py` — `EntityCache` with TTL, staleness and
  invalidation;
* `src/entities/models.py` — the entity data models;
* `src/entities/service.py` — `EntityService` CRUD, markdown
  serialization/parsing, and the dashboard assembly.

Modelling conventions:

* Concurrency is flattened: every `(task, field)` unit of the fan-out is a
  deterministic function of the stubbed gateway, and `asyncio.gather`
  preserves submission order, so the aggregation result is the sequential
  composition of the per-unit results.  Sleeps/backoffs have no observable
  effect on values and are dropped.
* The gateway is stubbed as a function from `(taskId, fieldId)` to a
  stream of attempt outcomes (`Nat → Attempt`): attempt 0 is the first
  call, attempt 1 the retry, and so on.
* Wall-clock time is an explicit `Int` (seconds); `datetime.utcnow()`
  becomes the current `World.time`, and `isoformat()` is modelled by an
  opaque injective rendering `isoOfTime` (claims only compare the strings
  for equality).
* Python `None` for remote field values is `FieldValue.null`; a general
  JSON value is restricted to the shapes that occur in this code base
  (null, string, integer, Select/DateTime tagged objects, other dicts
  carried with their string rendering).
-/

namespace Taskade

/-- Substring occurrence on character lists (Python `in` on `str`). -/
def hasSubstring (pat : List Char) : List Char → Bool
  | [] => pat.isEmpty
  | c :: rest => pat.isPrefixOf (c :: rest) || hasSubstring pat rest

/-- The `"429" in str(e)` — the Python substring membership test used to
detect a rate-limit failure. -/
def contains429 (s : String) : Bool :=
  hasSubstring "429".toList s.toList

/-- A remote field value as returned by the Taskade API
(`response.json()["item"]["value"]`).  `null` is Python `None`;
`select`/`datetime` are the tagged dicts handled by the field mapper;
`other r` is any other dict, carried with its Python string rendering. -/
inductive FieldValue where
  | null
  | str (s : String)
  | int (n : Int)
  | select (optionId : Option String)
  | datetime (date : Option String)
  | other (repr : String)
deriving DecidableEq

/-- Outcome of one HTTP attempt of `get_task_field`: success with a value,
or an exception carrying its message. -/
inductive Attempt where
  | ok (v : FieldValue)
  | err (msg : String)
deriving DecidableEq

/-- A stubbed gateway for per-field fetches: for each `(taskId, fieldId)`,
the stream of outcomes of successive `get_task_field` calls. -/
def Gateway : Type := String → String → Nat → Attempt

/-- A task as returned by the remote store: id, text content, and nested
child tasks. -/
inductive Task where
  | mk (id : String) (text : String) (tasks : List Task)

def Task.id : Task → String
  | .mk i _ _ => i

def Task.text : Task → String
  | .mk _ t _ => t

def Task.tasks : Task → List Task
  | .mk _ _ ts => ts

/-- The `extract_all_tasks` from `TaskadeClient.get_tasks`: flatten the nested
task forest, each task followed by the recursive flattening of its
children.  (The Python guard `if "tasks" in task and task["tasks"]` only
skips the recursive call on an empty child list, which recursing on `[]`
reproduces.) -/
def extract_all_tasks : List Task → List Task
  | [] => []
  | .mk i x ch :: rest =>
    .mk i x ch :: (extract_all_tasks ch ++ extract_all_tasks rest)

/-- The `TaskadeClient.get_task_all_fields.fetch_field`: one `(task, field)`
unit of work.  First attempt; if it raises and the message contains
`"429"`, wait and retry exactly once; a retry failure or a non-rate-limit
failure yields `(field_id, None, error)`.  Returns
`(field_id, value, error)`. -/
def fetch_field (gw : Gateway) (tid fid : String) :
    String × FieldValue × Option String :=
  match gw tid fid 0 with
  | .ok v => (fid, v, none)
  | .err msg =>
    if contains429 msg then
      match gw tid fid 1 with
      | .ok v => (fid, v, none)
      | .err msg2 => (fid, .null, some msg2)
    else (fid, .null, some msg)

/-- The `data[field_id] = value` on a Python dict modelled as an association
list: replace the value if the key is present, else append. -/
def dinsert (d : List (String × FieldValue)) (k : String) (v : FieldValue) :
    List (String × FieldValue) :=
  if d.any (fun p => p.1 == k) then
    d.map (fun p => if p.1 == k then (k, v) else p)
  else d ++ [(k, v)]

/-- The `TaskadeClient.get_task_all_fields`: fetch every field of one task and
collect the non-`None` values into a dict (fields whose value is `None` —
failed fetches and null successes alike — are omitted). -/
def get_task_all_fields (gw : Gateway) (tid : String) (fids : List String) :
    List (String × FieldValue) :=
  (fids.map (fetch_field gw tid)).foldl
    (fun d r => match r.2.1 with
      | .null => d
      | v => dinsert d r.1 v)
    []

/-- One entry of the aggregation result: `{task_id, task_name, fields}`. -/
structure TaskFields where
  task_id : String
  task_name : String
  fields : List (String × FieldValue)
deriving DecidableEq

/-- The `TaskadeClient.fetch_all_entities_with_fields`: fetch the task list
(retrying once after a backoff if the failure message contains `"429"`,
any other failure propagating), then assemble every task with its fields.
`la` is the stream of task-list attempt outcomes (the raw `items` of the
response, still nested; `get_tasks` flattens them).  Per-task assembly is
total — every per-field exception is caught inside
`get_task_all_fields` — so the final `isinstance(r, Exception)` filter
keeps every entry. -/
def fetch_all_entities_with_fields (la : Nat → Except String (List Task))
    (gw : Gateway) (fids : List String) : Except String (List TaskFields) :=
  let fetchTask := fun (t : Task) =>
    TaskFields.mk t.id t.text (get_task_all_fields gw t.id fids)
  match (la 0).map extract_all_tasks with
  | .ok ts => .ok (ts.map fetchTask)
  | .error e =>
    if contains429 e then ((la 1).map extract_all_tasks).map (·.map fetchTask)
    else .error e

end Taskade

/-! ## Field mapper (`src/entities/field_mapper.py`) -/

namespace FieldMapper

open Taskade (FieldValue)

/-- The `FIELD_MAP` — the fixed Taskade field handle → entity attribute table. -/
def FIELD_MAP : List (String × String) :=
  [("@e001", "entity_id"),
   ("@e002", "entity_name"),
   ("@e003", "entity_type"),
   ("@e004", "status"),
   ("@e005", "jurisdiction"),
   ("@e006", "formation_date"),
   ("@e007", "filing_id"),
   ("@e008", "ein"),
   ("@e009", "legal_address"),
   ("@e010", "legal_city"),
   ("@e011", "legal_state"),
   ("@e012", "legal_zip"),
   ("@e013", "mailing_address"),
   ("@e014", "mailing_city"),
   ("@e015", "mailing_state"),
   ("@e016", "mailing_zip"),
   ("@e019", "renewal_frequency"),
   ("@e020", "next_renewal_cost"),
   ("@e021", "parent_entity"),
   ("@e022", "registered_agent_id"),
   ("@e023", "notes"),
   ("@e026", "created_by"),
   ("@e027", "modified_by")]

/-- The `FIELD_MAP.get(field_id)` / the `field_id in FIELD_MAP` test. -/
def lookupFieldMap (fid : String) : Option String :=
  (FIELD_MAP.find? (fun p => p.1 == fid)).map (·.2)

/-- The `DASHBOARD_FIELDS` — attribute names needed for the dashboard. -/
def DASHBOARD_FIELDS : List String :=
  ["entity_id", "entity_name", "entity_type", "status", "jurisdiction",
   "formation_date", "filing_id", "ein", "legal_address", "legal_city",
   "legal_state", "legal_zip", "mailing_address", "mailing_city",
   "mailing_state", "mailing_zip", "renewal_frequency",
   "next_renewal_cost", "parent_entity", "registered_agent_id", "notes",
   "created_by", "modified_by"]

/-- The `ATTR_TO_FIELD` reverse lookup. -/
def lookupAttr (attr : String) : Option String :=
  (FIELD_MAP.find? (fun p => p.2 == attr)).map (·.1)

/-- The `get_dashboard_field_ids`. -/
def get_dashboard_field_ids : List String :=
  DASHBOARD_FIELDS.filterMap lookupAttr

/-- The `normalize_field_value`: extract a plain string from a Taskade field
value.  `None` stays `None`; a `Select` dict yields its `optionId`; a
`DateTime` dict yields its `date`; any other dict is rendered with `str`;
strings pass through; numbers are rendered with `str`. -/
def normalize_field_value : FieldValue → Option String
  | .null => none
  | .select o => o
  | .datetime d => d
  | .other r => some r
  | .str s => some s
  | .int n => some (toString n)

/-- The `map_field_values`: keep only field ids present in `FIELD_MAP`, rename
them to attribute names and normalize the values.  The input is a Python
dict, so its keys are distinct; with distinct keys (and `FIELD_MAP`
injective on its range) the comprehension is order-preserving filtering. -/
def map_field_values (taskade_data : List (String × FieldValue)) :
    List (String × Option String) :=
  taskade_data.filterMap (fun p =>
    (lookupFieldMap p.1).map (fun attr => (attr, normalize_field_value p.2)))

end FieldMapper

/-! ## Dashboard cache (`src/entities/cache.py`)

Time is an explicit `Int` of seconds; `datetime.utcnow()` is the `now`
argument threaded through every operation.  The stale threshold is the
fixed `timedelta(minutes=2)`; `int(remaining.total_seconds())` truncates
toward zero, which on whole seconds is the value itself, and the result
is clamped at zero by `max(0, ...)`. -/

/-- The `CacheEntry`: value plus `cached_at` / `expires_at` stamps. -/
structure CacheEntry (α : Type) where
  value : α
  cached_at : Int
  expires_at : Int
deriving DecidableEq

/-- The `EntityCache`: the single-slot TTL cache.  `ttl` is the
`ttl_seconds` constructor argument (default 300). -/
structure EntityCache (α : Type) where
  data : Option (CacheEntry α)
  ttl : Int
deriving DecidableEq

namespace EntityCache

/-- The `is_valid`: the slot is filled and `now < expires_at`. -/
def is_valid (c : EntityCache α) (now : Int) : Bool :=
  match c.data with
  | none => false
  | some e => now < e.expires_at

/-- The `is_stale`: empty, or older than the 120-second stale threshold. -/
def is_stale (c : EntityCache α) (now : Int) : Bool :=
  match c.data with
  | none => true
  | some e => now - e.cached_at > 120

/-- The `cached_at` property. -/
def cachedAt (c : EntityCache α) : Option Int :=
  c.data.map (·.cached_at)

/-- The `ttl_remaining`: seconds until expiry, clamped at zero; 0 when empty. -/
def ttl_remaining (c : EntityCache α) (now : Int) : Int :=
  match c.data with
  | none => 0
  | some e => max 0 (e.expires_at - now)

/-- The `get`: return the value only while valid; a miss does not clear. -/
def get (c : EntityCache α) (now : Int) : Option α :=
  if c.is_valid now then c.data.map (·.value) else none

/-- The `set`: store a fresh entry stamped `cached_at = now`,
`expires_at = now + ttl`. -/
def set (c : EntityCache α) (v : α) (now : Int) : EntityCache α :=
  { c with data := some ⟨v, now, now + c.ttl⟩ }

/-- The `invalidate`: clear the slot unconditionally. -/
def invalidate (c : EntityCache α) : EntityCache α :=
  { c with data := none }

end EntityCache

/-! ## Data models (`src/entities/models.py`) -/

/-- The `EntityType` literals. -/
def entityTypes : List String :=
  ["LLC", "Corporation", "S-Corp", "C-Corp", "Partnership", "LP", "LLP",
   "Trust", "Nonprofit"]

/-- The `EntityStatus` literals. -/
def entityStatuses : List String :=
  ["Active", "Inactive", "Dissolved", "Pending Formation"]

/-- A fully validated `Entity` (pydantic model after construction).
`formation_date` is kept as the ISO string rendering of the parsed
`date`; audit dates are the `isoformat()` strings. -/
structure Entity where
  entity_name : String
  entity_type : String
  jurisdiction : String
  status : String
  formation_date : Option String
  filing_id : Option String
  ein : Option String
  legal_address : Option String
  legal_city : Option String
  legal_state : Option String
  legal_zip : Option String
  notes : Option String
  entity_id : String
  taskade_task_id : String
  created_date : Option String
  modified_date : Option String
deriving DecidableEq

/-- A Python dict of entity fields, as passed to `Entity(**data)`.
For each key: `none` means the key is absent from the dict,
`some none` means the key is present with value `None`, and
`some (some s)` means the key is present with a (stringly rendered)
value. -/
structure PartialEntity where
  entity_name : Option (Option String) := none
  entity_type : Option (Option String) := none
  jurisdiction : Option (Option String) := none
  status : Option (Option String) := none
  formation_date : Option (Option String) := none
  filing_id : Option (Option String) := none
  ein : Option (Option String) := none
  legal_address : Option (Option String) := none
  legal_city : Option (Option String) := none
  legal_state : Option (Option String) := none
  legal_zip : Option (Option String) := none
  notes : Option (Option String) := none
  entity_id : Option (Option String) := none
  taskade_task_id : Option (Option String) := none
  created_date : Option (Option String) := none
  modified_date : Option (Option String) := none
deriving DecidableEq

/-- Days per month for date validation. -/
def daysInMonth (y m : Nat) : Nat :=
  if m = 2 then
    if (y % 4 = 0 && y % 100 != 0) || y % 400 = 0 then 29 else 28
  else if m = 4 || m = 6 || m = 9 || m = 11 then 30
  else 31

/-- Model of pydantic parsing a `date` from a string: the `YYYY-MM-DD`
ISO form with in-range month and day. -/
def isValidDate (s : String) : Bool :=
  match s.toList with
  | [y1, y2, y3, y4, '-', m1, m2, '-', d1, d2] =>
    if [y1, y2, y3, y4, m1, m2, d1, d2].all Char.isDigit then
      let y := ((y1.toNat - 48) * 1000 + (y2.toNat - 48) * 100 +
        (y3.toNat - 48) * 10 + (y4.toNat - 48))
      let m := (m1.toNat - 48) * 10 + (m2.toNat - 48)
      let d := (d1.toNat - 48) * 10 + (d2.toNat - 48)
      1 ≤ m && m ≤ 12 && 1 ≤ d && d ≤ daysInMonth y m
    else false
  | _ => false

/-- A required `str` field: the key must be present with a non-`None`
value. -/
def reqStr (f : Option (Option String)) : Option String :=
  match f with
  | some (some s) => some s
  | _ => none

/-- An unconstrained `Optional[str]` field: an absent key and a `None`
value both construct as `None`. -/
def getOpt (f : Option (Option String)) : Option String :=
  match f with
  | some (some s) => some s
  | _ => none

/-- The final record built by `Entity(**data)` once the required fields
are validated: the keyword arguments become model fields, optional
fields constructing as `None` when absent or `None`-valued. -/
def mkEntityIds (p : PartialEntity) (nm ty ju st : String)
    (fd : Option String) : Option Entity :=
  match p.entity_id with
  | some (some eid) =>
    match p.taskade_task_id with
    | some (some ttid) =>
      some
        { entity_name := nm
          entity_type := ty
          jurisdiction := ju
          status := st
          formation_date := fd
          filing_id := getOpt p.filing_id
          ein := getOpt p.ein
          legal_address := getOpt p.legal_address
          legal_city := getOpt p.legal_city
          legal_state := getOpt p.legal_state
          legal_zip := getOpt p.legal_zip
          notes := getOpt p.notes
          entity_id := eid
          taskade_task_id := ttid
          created_date := getOpt p.created_date
          modified_date := getOpt p.modified_date }
    | _ => none
  | _ => none

/-- The `formation_date` validation: when present and non-`None` it must
parse as a date; absent or `None` constructs as `None`. -/
def mkEntityDated (p : PartialEntity) (nm ty ju st : String) :
    Option Entity :=
  match p.formation_date with
  | some (some s) =>
    if isValidDate s then mkEntityIds p nm ty ju st (some s) else none
  | some none => mkEntityIds p nm ty ju st none
  | none => mkEntityIds p nm ty ju st none

/-- The `Entity(**data)` — pydantic construction and validation.  Required
string fields must be present and non-`None`; `entity_name` has
`min_length=1, max_length=200`; `jurisdiction` has exact length 2;
`entity_type`/`status` must be among their literals (`status` defaults to
`"Active"` when the key is absent); `formation_date`, when present and
non-`None`, must parse as a date.  Any violation raises, modelled as
`none`. -/
def mkEntity (p : PartialEntity) : Option Entity :=
  match p.entity_name with
  | some (some nm) =>
    if 1 ≤ nm.length ∧ nm.length ≤ 200 then
      match p.entity_type with
      | some (some ty) =>
        if ty ∈ entityTypes then
          match p.jurisdiction with
          | some (some ju) =>
            if 2 ≤ ju.length ∧ ju.length ≤ 2 then
              match p.status with
              | none => mkEntityDated p nm ty ju "Active"
              | some (some st) =>
                if st ∈ entityStatuses then mkEntityDated p nm ty ju st
                else none
              | some none => none
            else none
          | _ => none
        else none
      | _ => none
    else none
  | _ => none

/-- The `Entity.model_dump()`: the dict of a validated entity — every key
present. -/
def Entity.dump (e : Entity) : PartialEntity where
  entity_name := some (some e.entity_name)
  entity_type := some (some e.entity_type)
  jurisdiction := some (some e.jurisdiction)
  status := some (some e.status)
  formation_date := some e.formation_date
  filing_id := some e.filing_id
  ein := some e.ein
  legal_address := some e.legal_address
  legal_city := some e.legal_city
  legal_state := some e.legal_state
  legal_zip := some e.legal_zip
  notes := some e.notes
  entity_id := some (some e.entity_id)
  taskade_task_id := some (some e.taskade_task_id)
  created_date := some e.created_date
  modified_date := some e.modified_date

/-- The `EntityCreate` — a request validated at the HTTP boundary (the
service-level model leaves the literal/length checks to `mkEntity`).
`status` defaults to `"Active"`. -/
structure EntityCreate where
  entity_name : String
  entity_type : String
  jurisdiction : String
  status : String := "Active"
  formation_date : Option String := none
  filing_id : Option String := none
  ein : Option String := none
  legal_address : Option String := none
  legal_city : Option String := none
  legal_state : Option String := none
  legal_zip : Option String := none
  notes : Option String := none
deriving DecidableEq

/-- The `EntityCreate.model_dump()`: every request key present in the dict. -/
def EntityCreate.dump (c : EntityCreate) : PartialEntity where
  entity_name := some (some c.entity_name)
  entity_type := some (some c.entity_type)
  jurisdiction := some (some c.jurisdiction)
  status := some (some c.status)
  formation_date := some c.formation_date
  filing_id := some c.filing_id
  ein := some c.ein
  legal_address := some c.legal_address
  legal_city := some c.legal_city
  legal_state := some c.legal_state
  legal_zip := some c.legal_zip
  notes := some c.notes

/-- The `EntityUpdate` — all-optional update request.  For each field,
`none` means the field was not supplied (excluded by
`model_dump(exclude_unset=True)`), `some v` means it was explicitly set
to `v` (possibly explicitly to `None`). -/
structure EntityUpdate where
  entity_name : Option (Option String) := none
  entity_type : Option (Option String) := none
  jurisdiction : Option (Option String) := none
  status : Option (Option String) := none
  formation_date : Option (Option String) := none
  filing_id : Option (Option String) := none
  ein : Option (Option String) := none
  legal_address : Option (Option String) := none
  legal_city : Option (Option String) := none
  legal_state : Option (Option String) := none
  legal_zip : Option (Option String) := none
  notes : Option (Option String) := none
deriving DecidableEq

/-- The `merged_data.update(update_data)` on one key: an explicitly set update
field overwrites, an unset one keeps the existing dict value. -/
def updKey (u : Option (Option String)) (d : Option (Option String)) :
    Option (Option String) :=
  match u with
  | some x => some x
  | none => d

/-- The `merged_data = existing.model_dump(); merged_data.update(update_data)`. -/
def mergeUpdate (d : PartialEntity) (u : EntityUpdate) : PartialEntity :=
  { d with
    entity_name := updKey u.entity_name d.entity_name
    entity_type := updKey u.entity_type d.entity_type
    jurisdiction := updKey u.jurisdiction d.jurisdiction
    status := updKey u.status d.status
    formation_date := updKey u.formation_date d.formation_date
    filing_id := updKey u.filing_id d.filing_id
    ein := updKey u.ein d.ein
    legal_address := updKey u.legal_address d.legal_address
    legal_city := updKey u.legal_city d.legal_city
    legal_state := updKey u.legal_state d.legal_state
    legal_zip := updKey u.legal_zip d.legal_zip
    notes := updKey u.notes d.notes }

/-- The `EntitySummary` — the lightweight dashboard projection. -/
structure EntitySummary where
  entity_id : String
  entity_name : String
  entity_type : String
  status : String
  jurisdiction : String
  formation_date : Option String
  taskade_task_id : String
deriving DecidableEq

/-- The `DashboardStats` — status-bucket counts. -/
structure DashboardStats where
  total : Nat
  active : Nat
  inactive : Nat
  pending : Nat
  dissolved : Nat
deriving DecidableEq

/-- The `CacheMetadata` for the dashboard response. -/
structure CacheMetadata where
  cached_at : Option String
  is_stale : Bool
  ttl_remaining_seconds : Int
deriving DecidableEq

/-- The `DashboardResponse`. -/
structure DashboardResponse where
  stats : DashboardStats
  entities : List EntitySummary
  cache : CacheMetadata
deriving DecidableEq

/-- The `DashboardStats(...)` computation of
`EntityService._fetch_dashboard_data` (`src/entities/service.py` lines
321–328): total is the number of summaries, each bucket counts exact
string matches of `status`. -/
def computeStats (entities : List EntitySummary) : DashboardStats where
  total := entities.length
  active := entities.countP (fun e => e.status == "Active")
  inactive := entities.countP (fun e => e.status == "Inactive")
  pending := entities.countP (fun e => e.status == "Pending Formation")
  dissolved := entities.countP (fun e => e.status == "Dissolved")

/-! ## Markdown serialization and parsing (`src/entities/service.py`)

`_parse_task_to_entity` extracts fields with `re.search`.  The helpers
below model the exact regex semantics needed here:

* `searchCapture` models `re.search(marker + r":\s*(.+)", content)` for a
  literal marker: leftmost occurrence of the marker whose tail admits
  `\s*(.+)`; greedy `\s*` may cross newlines, `.` never matches a
  newline, and on end-of-string the engine backtracks into the
  whitespace, capturing a final non-newline whitespace character.
* `searchHash` models `re.search(r"^#\s+(.+)", content, re.MULTILINE)`.
* `searchNotes` models
  `re.search(r"##\s+Notes\s*\n(.+)", content, re.DOTALL)`.
-/

/-- Python `\s` on ASCII text. -/
def pyIsSpace (c : Char) : Bool :=
  c == ' ' || c == '\t' || c == '\n' || c == '\r' ||
  c == Char.ofNat 11 || c == Char.ofNat 12

/-- Python `str.strip()`. -/
def pyStrip (l : List Char) : String :=
  String.mk (((l.dropWhile pyIsSpace).reverse.dropWhile pyIsSpace).reverse)

/-- Match `\s*(.+)` against `t` (the tail after the literal part),
returning the raw capture.  Greedy: skip the maximal whitespace run; if a
character remains it starts the capture, which extends to the end of the
line; otherwise backtrack — the capture is the last non-newline
whitespace character, if any. -/
def matchValueAfter (t : List Char) : Option (List Char) :=
  let w := t.takeWhile pyIsSpace
  let rest := t.drop w.length
  if rest ≠ [] then some (rest.takeWhile (fun c => c != '\n'))
  else
    match w.reverse.dropWhile (fun c => c == '\n') with
    | [] => none
    | c :: _ => some [c]

/-- The `re.search(<literal marker> + r"\s*(.+)", s)`, capture stripped:
scan left to right for an occurrence of the marker whose tail matches. -/
def searchCapture (marker : List Char) (s : List Char) : Option String :=
  match s with
  | [] => none
  | _ :: tail =>
    if marker.isPrefixOf s then
      match matchValueAfter (s.drop marker.length) with
      | some cap => some (pyStrip cap)
      | none => searchCapture marker tail
    else searchCapture marker tail

/-- The `re.search(r"^#\s+(.+)", s, re.MULTILINE)`, capture stripped.
`atStart` records whether the current position is a line start.
`\s+(.+)` is one whitespace character followed by `\s*(.+)`. -/
def searchHash (s : List Char) (atStart : Bool) : Option String :=
  match s with
  | [] => none
  | c :: tail =>
    if atStart && c == '#' then
      match tail with
      | d :: _ =>
        if pyIsSpace d then
          match matchValueAfter tail with
          | some cap => some (pyStrip cap)
          | none => searchHash tail false
        else searchHash tail false
      | [] => searchHash tail false
    else searchHash tail (c == '\n')

/-- Match `\s*\n(.+)` with `re.DOTALL` against `t` (the tail after
`Notes`), capture stripped.  Greedy: the last newline inside the leading
whitespace run that leaves a nonempty remainder; when only whitespace
remains, the capture is trailing whitespace and strips to `""`. -/
def notesCaptureAfter (t : List Char) : Option String :=
  let w := t.takeWhile pyIsSpace
  let rest := t.drop w.length
  if rest ≠ [] then
    let afterNL := w.reverse.takeWhile (fun c => c != '\n')
    if afterNL.length == w.length then none
    else some (pyStrip (afterNL.reverse ++ rest))
  else
    if (w.take (w.length - 1)).contains '\n' then some "" else none

/-- The `re.search(r"##\s+Notes\s*\n(.+)", s, re.DOTALL)`, capture stripped. -/
def searchNotes (s : List Char) : Option String :=
  match s with
  | [] => none
  | _ :: tail =>
    if ['#', '#'].isPrefixOf s then
      let t1 := s.drop 2
      let w1 := t1.takeWhile pyIsSpace
      if w1.length > 0 && ("Notes".toList.isPrefixOf (t1.drop w1.length)) then
        match notesCaptureAfter (t1.drop (w1.length + 5)) with
        | some cap => some cap
        | none => searchNotes tail
      else searchNotes tail
    else searchNotes tail

/-- The `if value and value != "N/A": entity_data[field] = value` — keep a
captured value only when nonempty and not the `N/A` placeholder. -/
def fieldFromCapture (c : Option String) : Option (Option String) :=
  match c with
  | some v => if v != "" && v != "N/A" then some (some v) else none
  | none => none

/-- The `EntityService._parse_task_to_entity`: regex-extract the entity dict
from the task's markdown content, then `Entity(**entity_data)` guarded by
try/except. -/
def parse_task_to_entity (t : Taskade.Task) : Option Entity :=
  let content := t.text
  if content == "" then none
  else
    let s := content.toList
    match searchCapture ("**Entity ID**:".toList) s with
    | none => none
    | some eid =>
      mkEntity
        { entity_id := some (some eid)
          taskade_task_id := some (some t.id)
          entity_name := fieldFromCapture (searchHash s true)
          entity_type := fieldFromCapture (searchCapture ("**Type**:".toList) s)
          status := fieldFromCapture (searchCapture ("**Status**:".toList) s)
          jurisdiction :=
            fieldFromCapture (searchCapture ("**Jurisdiction**:".toList) s)
          formation_date :=
            fieldFromCapture (searchCapture ("**Formation Date**:".toList) s)
          filing_id :=
            fieldFromCapture (searchCapture ("**Filing ID**:".toList) s)
          ein := fieldFromCapture (searchCapture ("**EIN**:".toList) s)
          legal_address :=
            fieldFromCapture (searchCapture ("**Legal Address**:".toList) s)
          notes :=
            match searchNotes s with
            | some v =>
              if v != "" && v != "No additional notes" then some (some v)
              else none
            | none => none }

/-- A dict read `entity.get(key, default)` rendered into an f-string:
an absent key renders the default, a `None` value renders as `None`. -/
def mdGet (f : Option (Option String)) (dflt : String) : String :=
  match f with
  | none => dflt
  | some none => "None"
  | some (some s) => s

/-- The `EntityService._entity_to_markdown` — the exact markdown template. -/
def entity_to_markdown (d : PartialEntity) : String :=
  "# " ++ mdGet d.entity_name "Unnamed Entity" ++
  "\n\n## Basic Information\n- **Entity ID**: " ++ mdGet d.entity_id "N/A" ++
  "\n- **Type**: " ++ mdGet d.entity_type "N/A" ++
  "\n- **Status**: " ++ mdGet d.status "N/A" ++
  "\n- **Jurisdiction**: " ++ mdGet d.jurisdiction "N/A" ++
  "\n- **Formation Date**: " ++ mdGet d.formation_date "N/A" ++
  "\n- **Filing ID**: " ++ mdGet d.filing_id "N/A" ++
  "\n- **EIN**: " ++ mdGet d.ein "N/A" ++
  "\n\n## Addresses\n**Legal Address**: " ++ mdGet d.legal_address "N/A" ++
  ", " ++ mdGet d.legal_city "N/A" ++
  ", " ++ mdGet d.legal_state "N/A" ++
  " " ++ mdGet d.legal_zip "N/A" ++
  "\n\n## Notes\n" ++ mdGet d.notes "No additional notes" ++ "\n"

/-! ## Entity service (`src/entities/service.py`)

The service is modelled as explicit state passing over a `World`: the
remote task store (a forest, as the remote may nest tasks), the remote's
opaque id counter for newly created tasks, the process-wide dashboard
cache singleton, the clock, and the stubbed per-field gateway used by the
dashboard fan-out. -/

/-- The `datetime.utcnow().isoformat()` — an opaque injective rendering of
the clock; claims only compare these strings for equality. -/
def isoOfTime (t : Int) : String := toString t

/-- The RFC 4648 base32 alphabet used by `base64.b32encode`. -/
def b32Char (k : Nat) : Char :=
  "ABCDEFGHIJKLMNOPQRSTUVWXYZ234567".toList.getD k 'A'

/-- The `base64.b32encode(int(time*1000).to_bytes(8, "big")).decode()`
`.rstrip("=")[:8].upper()` — the first 8 base32 characters encode the top
40 bits of the millisecond timestamp as a 64-bit big-endian value (the
output is already uppercase and the first 8 of 13 data characters carry
no padding). -/
def entityIdSuffix (ms : Nat) : String :=
  let n := ms % 2 ^ 64
  String.mk ((List.range 8).map (fun i => b32Char (n / 2 ^ (59 - 5 * i) % 32)))

/-- The explicit process state. -/
structure World where
  tasks : List Taskade.Task
  nextId : Nat
  cache : EntityCache DashboardResponse
  time : Int
  gw : Taskade.Gateway

/-- The remote store's id for a newly created task (opaque; modelled as a
counter-backed fresh name). -/
def freshTaskId (n : Nat) : String := "task-" ++ toString n

/-- Remote `PUT /tasks/{id}`: replace the content of every task with the
matching id, anywhere in the forest. -/
def update_task_forest : List Taskade.Task → String → String → List Taskade.Task
  | [], _, _ => []
  | .mk i x ch :: rest, tid, content =>
    Taskade.Task.mk i (if i == tid then content else x)
        (update_task_forest ch tid content) ::
      update_task_forest rest tid content

/-- Remote `DELETE /tasks/{id}`: remove every task with the matching id,
anywhere in the forest. -/
def delete_task_forest : List Taskade.Task → String → List Taskade.Task
  | [], _ => []
  | .mk i x ch :: rest, tid =>
    if i == tid then delete_task_forest rest tid
    else Taskade.Task.mk i x (delete_task_forest ch tid) ::
      delete_task_forest rest tid

namespace EntityService

/-- The `EntityService.get_all`: list the project's tasks (flattened by the
gateway) and parse each one, dropping unparsable tasks. -/
def get_all (w : World) : List Entity :=
  (Taskade.extract_all_tasks w.tasks).filterMap parse_task_to_entity

/-- The `EntityService.get_by_id`: first parsed entity with the given id. -/
def get_by_id (w : World) (entity_id : String) : Option Entity :=
  (get_all w).find? (fun e => e.entity_id == entity_id)

/-- The `EntityService.search`: case-insensitive containment against name,
filing id and jurisdiction. -/
def search (w : World) (query : String) : List Entity :=
  let lq := query.toLower
  (get_all w).filter (fun e =>
    ((e.entity_name.toLower.splitOn lq).length != 1) ||
    (match e.filing_id with
     | some f => (f.toLower.splitOn lq).length != 1
     | none => false) ||
    ((e.jurisdiction.toLower.splitOn lq).length != 1))

/-- The `EntityService.create`: generate the timestamp-based id, stamp audit
dates, serialize to markdown, create the remote task, invalidate the
dashboard cache, and construct the returned `Entity` (a pydantic
validation failure raises after the cache was already invalidated). -/
def create (w : World) (inp : EntityCreate) : Except String Entity × World :=
  let entity_id := "ENT-" ++ entityIdSuffix (w.time * 1000).toNat
  let d1 : PartialEntity :=
    { inp.dump with
      entity_id := some (some entity_id)
      created_date := some (some (isoOfTime w.time))
      modified_date := some (some (isoOfTime w.time)) }
  let content := entity_to_markdown d1
  let newTask := Taskade.Task.mk (freshTaskId w.nextId) content []
  let d2 := { d1 with taskade_task_id := some (some newTask.id) }
  let w2 := { w with
    tasks := w.tasks ++ [newTask]
    nextId := w.nextId + 1
    cache := w.cache.invalidate }
  match mkEntity d2 with
  | some e => (.ok e, w2)
  | none => (.error "validation error", w2)

/-- The `EntityService.update`: `NotFound` when the id is absent; otherwise
merge the explicitly set update fields over the existing record's dict,
restamp `modified_date`, re-serialize, update the remote task, invalidate
the cache, and construct the returned `Entity`. -/
def update (w : World) (entity_id : String) (updates : EntityUpdate) :
    Except String Entity × World :=
  match get_by_id w entity_id with
  | none => (.error ("Entity not found: " ++ entity_id), w)
  | some existing =>
    let merged := { mergeUpdate existing.dump updates with
      modified_date := some (some (isoOfTime w.time)) }
    let content := entity_to_markdown merged
    let w2 := { w with
      tasks := update_task_forest w.tasks existing.taskade_task_id content
      cache := w.cache.invalidate }
    match mkEntity merged with
    | some e => (.ok e, w2)
    | none => (.error "validation error", w2)

/-- The `EntityService.delete`: `NotFound` when the id is absent; otherwise
delete the remote task and invalidate the cache. -/
def delete (w : World) (entity_id : String) : Except String Unit × World :=
  match get_by_id w entity_id with
  | none => (.error ("Entity not found: " ++ entity_id), w)
  | some existing =>
    (.ok (), { w with
      tasks := delete_task_forest w.tasks existing.taskade_task_id
      cache := w.cache.invalidate })

/-- The `mapped.get(key, default)` over the normalized attribute dict. -/
def lookupMapped (m : List (String × Option String)) (k : String) :
    Option (Option String) :=
  (m.find? (fun p => p.1 == k)).map (·.2)

/-- The `mapped.get(key, default)`: the stored value (possibly `None`) when
the key is present, else the default. -/
def mgetD (m : List (String × Option String)) (k : String)
    (dflt : Option String) : Option String :=
  match lookupMapped m k with
  | some v => v
  | none => dflt

/-- The guarded `EntitySummary(...)` construction of
`_fetch_dashboard_data`: every `str`-typed argument must be non-`None`
(a `None` raises a pydantic validation error and the task is dropped);
extra keyword arguments are ignored by the model config. -/
def mkSummary (m : List (String × Option String))
    (item : Taskade.TaskFields) : Option EntitySummary := do
  let eid ← mgetD m "entity_id" (some item.task_id)
  let nm ← mgetD m "entity_name" (some item.task_name)
  let ty ← mgetD m "entity_type" (some "Unknown")
  let st ← mgetD m "status" (some "Unknown")
  let ju ← mgetD m "jurisdiction" (some "Unknown")
  pure
    { entity_id := eid
      entity_name := nm
      entity_type := ty
      status := st
      jurisdiction := ju
      formation_date := (lookupMapped m "formation_date").join
      taskade_task_id := item.task_id }

/-- The `EntityCache.get_metadata` (`src/entities/cache.py`). -/
def cacheMetadata (c : EntityCache DashboardResponse) (now : Int) :
    CacheMetadata where
  cached_at := c.data.map (fun e => isoOfTime e.cached_at)
  is_stale := c.is_stale now
  ttl_remaining_seconds := c.ttl_remaining now

/-- The `EntityService._fetch_dashboard_data`: fan-out fetch over the store,
normalize each task's fields, build the summaries (dropping invalid
ones), compute the stats, and attach metadata read from the *current*
cache state.  The task-list fetch against the modelled store always
succeeds. -/
def fetchDashboardData (w : World) : Except String DashboardResponse :=
  match Taskade.fetch_all_entities_with_fields (fun _ => .ok w.tasks) w.gw
      FieldMapper.get_dashboard_field_ids with
  | .error e => .error e
  | .ok raw =>
    let entities := raw.filterMap (fun item =>
      mkSummary (FieldMapper.map_field_values item.fields) item)
    .ok ⟨computeStats entities, entities, cacheMetadata w.cache w.time⟩

/-- The `EntityService.get_dashboard`: serve the cached snapshot when not
forcing and the cache reports valid (re-checked inside `get`; a miss
falls through to a fresh fetch), else fetch fresh and store it. -/
def get_dashboard (w : World) (force_refresh : Bool) :
    Except String DashboardResponse × World :=
  let fetchPath := fun (w : World) =>
    match fetchDashboardData w with
    | .ok d => (Except.ok d, { w with cache := w.cache.set d w.time })
    | .error e => (Except.error e, w)
  if !force_refresh && w.cache.is_valid w.time then
    match w.cache.get w.time with
    | some d => (.ok d, w)
    | none => fetchPath w
  else fetchPath w

/-- The `EntityService.refresh_dashboard`: invalidate, then force-fetch. -/
def refresh_dashboard (w : World) : Except String DashboardResponse × World :=
  get_dashboard { w with cache := w.cache.invalidate } true

end EntityService

/-! ## Theorems -/

/-- Per-element bucket indicator: a status string falls in exactly one of
the four buckets iff it is one of the recognized literals. -/
theorem statusBuckets (s : String) :
    ((if s = "Active" then 1 else 0) + (if s = "Inactive" then 1 else 0) +
     (if s = "Pending Formation" then 1 else 0) +
     (if s = "Dissolved" then 1 else 0) : Nat) =
    if s ∈ entityStatuses then 1 else 0 := by
  by_cases h1 : s = "Active"
  · subst h1; decide
  · by_cases h2 : s = "Inactive"
    · subst h2; decide
    · by_cases h3 : s = "Pending Formation"
      · subst h3; decide
      · by_cases h4 : s = "Dissolved"
        · subst h4; decide
        · simp [entityStatuses, h1, h2, h3, h4]

/-- The four status-bucket counts sum to the count of recognized
statuses. -/
theorem countP_status_sum (es : List EntitySummary) :
    es.countP (fun e => e.status == "Active") +
      es.countP (fun e => e.status == "Inactive") +
      es.countP (fun e => e.status == "Pending Formation") +
      es.countP (fun e => e.status == "Dissolved") =
    es.countP (fun e => decide (e.status ∈ entityStatuses)) := by
  induction es with
  | nil => rfl
  | cons e t ih =>
    simp only [List.countP_cons, beq_iff_eq, decide_eq_true_eq]
    have h := statusBuckets e.status
    omega

/-- C4: for every list of `EntitySummary`, the `DashboardStats` computed
from it satisfies `active + inactive + pending + dissolved ≤ total`, with
equality iff every summary's status is one of the four recognized
literals `"Active"`, `"Inactive"`, `"Pending Formation"`,
`"Dissolved"`. -/
theorem c4_stats_invariant (es : List EntitySummary) :
    (computeStats es).active + (computeStats es).inactive +
        (computeStats es).pending + (computeStats es).dissolved ≤
      (computeStats es).total ∧
    ((computeStats es).active + (computeStats es).inactive +
        (computeStats es).pending + (computeStats es).dissolved =
        (computeStats es).total ↔
      ∀ e ∈ es, e.status ∈ entityStatuses) := by
  have hsum := countP_status_sum es
  simp only [computeStats]
  rw [hsum]
  constructor
  · exact List.countP_le_length _
  · rw [List.countP_eq_length]
    simp

/-- C2 counterexample: with `ttl_seconds = 0` (a value the cache can be
constructed with), `get()` immediately after `set(v)` — same clock
reading — is already a miss, because `expires_at = now` and validity
requires `now < expires_at`.  So the claim fails as stated for
non-positive TTL configurations. -/
theorem c2_counterexample :
    ((EntityCache.mk none 0 : EntityCache Nat).set 7 100).get 100 = none ∧
    ((EntityCache.mk none 0 : EntityCache Nat).set 7 100).get 100 ≠
      some 7 := by
  constructor
  · rfl
  · intro h
    simp [EntityCache.get, EntityCache.set, EntityCache.is_valid] at h

/-- C2 (amended): for every cache constructed with a *positive*
`ttl_seconds`, `get()` immediately after `set(v)` (no intervening clock
advance) returns `v`; and for every cache and every time `t` at or past
the stored entry's `expires_at`, `get()` returns absent. -/
theorem c2_cache_ttl {α : Type} (c c' : EntityCache α) (v : α) (now t : Int)
    (httl : 0 < c.ttl) (e : CacheEntry α) (hdata : c'.data = some e)
    (hexp : e.expires_at ≤ t) :
    (c.set v now).get now = some v ∧ c'.get t = none := by
  constructor
  · simp only [EntityCache.get, EntityCache.set, EntityCache.is_valid]
    have : now < now + c.ttl := by omega
    simp [this]
  · simp only [EntityCache.get, EntityCache.is_valid, hdata]
    have : ¬ t < e.expires_at := by omega
    simp [this]

/-- C2 witness: an instantiation of `c2_cache_ttl` at `ttl = 300`. -/
theorem c2_cache_ttl_witness :
    ((EntityCache.mk none 300 : EntityCache Nat).set 5 0).get 0 = some 5 ∧
    (EntityCache.mk (some (CacheEntry.mk 5 0 300)) 300 :
      EntityCache Nat).get 300 = none :=
  c2_cache_ttl (EntityCache.mk none 300)
    (EntityCache.mk (some (CacheEntry.mk 5 0 300)) 300) 5 0 300 (by decide)
    (CacheEntry.mk 5 0 300) rfl (by decide)

/-- C6: over any raw field dict (distinct keys), the mapped output
contains exactly the entries arising from recognized field identifiers,
renamed through `FIELD_MAP` with normalized values; an unrecognized
identifier contributes nothing; a `Select` value maps to its `optionId`
payload, a `DateTime` value to its `date` payload, and `None` stays
`None`. -/
theorem c6_field_mapping (raw : List (String × Taskade.FieldValue))
    (_hkeys : (raw.map Prod.fst).Nodup) :
    (∀ a w, (a, w) ∈ FieldMapper.map_field_values raw ↔
      ∃ fid v, (fid, v) ∈ raw ∧ FieldMapper.lookupFieldMap fid = some a ∧
        w = FieldMapper.normalize_field_value v) ∧
    (∀ fid v, FieldMapper.lookupFieldMap fid = none →
      FieldMapper.map_field_values ((fid, v) :: raw) =
        FieldMapper.map_field_values raw) ∧
    (∀ o, FieldMapper.normalize_field_value (.select o) = o) ∧
    (∀ d, FieldMapper.normalize_field_value (.datetime d) = d) ∧
    FieldMapper.normalize_field_value .null = none := by
  refine ⟨?_, ?_, fun _ => rfl, fun _ => rfl, rfl⟩
  · intro a w
    simp only [FieldMapper.map_field_values, List.mem_filterMap,
      Option.map_eq_some', Prod.exists]
    constructor
    · rintro ⟨fid, v, hmem, attr, hl, heq⟩
      cases heq
      exact ⟨fid, v, hmem, hl, rfl⟩
    · rintro ⟨fid, v, hmem, hl, rfl⟩
      exact ⟨fid, v, hmem, a, hl, rfl⟩
  · intro fid v h
    simp [FieldMapper.map_field_values, h]

/-- C6 witness: a concrete dict with one recognized `Select` field and
one unrecognized field. -/
theorem c6_field_mapping_witness :
    ("status", some "llc") ∈ FieldMapper.map_field_values
      [("@e004", Taskade.FieldValue.select (some "llc")),
       ("@zzz", Taskade.FieldValue.str "x")] :=
  ((c6_field_mapping
      [("@e004", Taskade.FieldValue.select (some "llc")),
       ("@zzz", Taskade.FieldValue.str "x")] (by decide)).1
    "status" (some "llc")).mpr
    ⟨"@e004", Taskade.FieldValue.select (some "llc"), by decide, by decide,
      rfl⟩

/-- Occurrence of a task anywhere in a nested task forest. -/
def OccursF (t : Taskade.Task) : List Taskade.Task → Prop
  | [] => False
  | .mk i x ch :: rest =>
    Taskade.Task.mk i x ch = t ∨ OccursF t ch ∨ OccursF t rest


/-- A task occurring at the top level of a forest occurs in it. -/
theorem occursF_of_mem {t : Taskade.Task} :
    ∀ {ts : List Taskade.Task}, t ∈ ts → OccursF t ts := by
  intro ts
  induction ts with
  | nil => intro h; cases h
  | cons u rest ih =>
    intro h
    cases u with
    | mk i x ch =>
      simp only [OccursF]
      rcases List.mem_cons.mp h with h | h
      · exact Or.inl h.symm
      · exact Or.inr (Or.inr (ih h))

/-- The flattening contains exactly the tasks occurring in the forest. -/
theorem mem_extract_all_tasks (t : Taskade.Task) :
    ∀ ts : List Taskade.Task,
      t ∈ Taskade.extract_all_tasks ts ↔ OccursF t ts
  | [] => by simp [Taskade.extract_all_tasks, OccursF]
  | .mk i x ch :: rest => by
    simp only [Taskade.extract_all_tasks, OccursF, List.mem_cons,
      List.mem_append, mem_extract_all_tasks t ch,
      mem_extract_all_tasks t rest]
    constructor
    · rintro (h | h | h)
      · exact Or.inl h.symm
      · exact Or.inr (Or.inl h)
      · exact Or.inr (Or.inr h)
    · rintro (h | h | h)
      · exact Or.inl h.symm
      · exact Or.inr (Or.inl h)
      · exact Or.inr (Or.inr h)

/-- Splitting `A ++ B = l1 ++ t :: l2` locates `t` in `A` or in `B`. -/
theorem append_cons_split {α : Type} (t : α) :
    ∀ (A B l1 l2 : List α), A ++ B = l1 ++ t :: l2 →
      (∃ u, A = l1 ++ t :: u ∧ l2 = u ++ B) ∨
      (∃ v, l1 = A ++ v ∧ B = v ++ t :: l2)
  | [], B, l1, l2 => fun h => Or.inr ⟨l1, rfl, h⟩
  | a :: A', B, [], l2 => by
    intro h
    simp only [List.cons_append, List.nil_append, List.cons.injEq] at h
    exact Or.inl ⟨A', by simp [h.1], h.2.symm⟩
  | a :: A', B, b :: l1', l2 => by
    intro h
    simp only [List.cons_append, List.cons.injEq] at h
    rcases append_cons_split t A' B l1' l2 h.2 with ⟨u, hu1, hu2⟩ | ⟨v, hv1, hv2⟩
    · exact Or.inl ⟨u, by simp [h.1, hu1], hu2⟩
    · exact Or.inr ⟨v, by simp [h.1, hv1], hv2⟩

/-- Wherever a task value appears in the flattening, it is immediately
followed by the flattening of its own children. -/
theorem extract_all_tasks_split :
    ∀ (ts l1 : List Taskade.Task) (t : Taskade.Task)
      (l2 : List Taskade.Task),
      Taskade.extract_all_tasks ts = l1 ++ t :: l2 →
      ∃ l2b, l2 = Taskade.extract_all_tasks t.tasks ++ l2b
  | [], l1, t, l2 => by
    intro h
    simp only [Taskade.extract_all_tasks] at h
    exact absurd h.symm (List.append_ne_nil_of_right_ne_nil l1 (by simp))
  | .mk i x ch :: rest, l1, t, l2 => by
    intro h
    simp only [Taskade.extract_all_tasks] at h
    cases l1 with
    | nil =>
      simp only [List.nil_append, List.cons.injEq] at h
      obtain ⟨h1, h2⟩ := h
      subst h1
      exact ⟨Taskade.extract_all_tasks rest, by rw [← h2]; rfl⟩
    | cons a l1' =>
      simp only [List.cons_append, List.cons.injEq] at h
      rcases append_cons_split t (Taskade.extract_all_tasks ch)
          (Taskade.extract_all_tasks rest) l1' l2 h.2 with
        ⟨u, hu1, hu2⟩ | ⟨v, hv1, hv2⟩
      · obtain ⟨ub, hub⟩ := extract_all_tasks_split ch l1' t u hu1
        exact ⟨ub ++ Taskade.extract_all_tasks rest, by simp [hu2, hub]⟩
      · exact extract_all_tasks_split rest v t l2 hv2

/-- C7: the task-list operation flattens any nested task tree into a
single flat ordered sequence containing exactly the tasks occurring in
the tree, and wherever a task appears in that sequence, each of its
children appears after it (depth-first: a task is immediately followed
by the flattening of its subtree). -/
theorem c7_flatten (ts : List Taskade.Task) :
    (∀ t, t ∈ Taskade.extract_all_tasks ts ↔ OccursF t ts) ∧
    (∀ l1 t l2, Taskade.extract_all_tasks ts = l1 ++ t :: l2 →
      ∀ c ∈ t.tasks, c ∈ l2) := by
  refine ⟨fun t => mem_extract_all_tasks t ts, ?_⟩
  intro l1 t l2 h c hc
  obtain ⟨l2b, hl2⟩ := extract_all_tasks_split ts l1 t l2 h
  rw [hl2]
  refine List.mem_append.mpr (Or.inl ?_)
  exact (mem_extract_all_tasks c t.tasks).mpr (occursF_of_mem hc)

/-- C7 witness: a two-level tree — the child `b` occurs in the flattening
and appears after its parent `a`. -/
theorem c7_flatten_witness :
    Taskade.Task.mk "b" "B" [] ∈
      Taskade.extract_all_tasks
        [Taskade.Task.mk "a" "A" [Taskade.Task.mk "b" "B" []]] ∧
    Taskade.Task.mk "b" "B" [] ∈ [Taskade.Task.mk "b" "B" []] :=
  ⟨((c7_flatten [Taskade.Task.mk "a" "A" [Taskade.Task.mk "b" "B" []]]).1
      (Taskade.Task.mk "b" "B" [])).mpr (by simp [OccursF]),
   (c7_flatten [Taskade.Task.mk "a" "A" [Taskade.Task.mk "b" "B" []]]).2
     [] (Taskade.Task.mk "a" "A" [Taskade.Task.mk "b" "B" []])
     [Taskade.Task.mk "b" "B" []] (by simp [Taskade.extract_all_tasks])
     (Taskade.Task.mk "b" "B" [])
     (List.mem_singleton.mpr rfl)⟩

/-- The `fetch_field` always reports the field id it was asked for. -/
theorem fetch_field_fst (gw : Taskade.Gateway) (tid fid : String) :
    (Taskade.fetch_field gw tid fid).1 = fid := by
  unfold Taskade.fetch_field
  cases gw tid fid 0 with
  | ok v => rfl
  | err m =>
    by_cases h : Taskade.contains429 m = true
    · simp only [h, if_true]
      cases gw tid fid 1 with
      | ok v => rfl
      | err m2 => rfl
    · simp [h]

/-- Membership in `dinsert` when all stored values are determined by
their key and the inserted value matches. -/
theorem dinsert_mem (valOf : String → Taskade.FieldValue)
    (d : List (String × Taskade.FieldValue)) (a : String)
    (hinv : ∀ p ∈ d, p.2 = valOf p.1) (f : String)
    (w : Taskade.FieldValue) :
    ((f, w) ∈ Taskade.dinsert d a (valOf a)) ↔
      ((f, w) ∈ d ∨ (f = a ∧ w = valOf a)) := by
  unfold Taskade.dinsert
  by_cases hany : (d.any (fun p => p.1 == a)) = true
  · rw [if_pos hany]
    simp only [List.mem_map]
    constructor
    · rintro ⟨p, hp, hpe⟩
      by_cases hk : p.1 = a
      · rw [if_pos (by simpa using hk)] at hpe
        obtain ⟨ha, hv⟩ := Prod.ext_iff.mp hpe
        exact Or.inr ⟨ha.symm, hv.symm⟩
      · rw [if_neg (by simpa using hk)] at hpe
        exact Or.inl (hpe ▸ hp)
    · rintro (hmem | ⟨hf, hw⟩)
      · refine ⟨(f, w), hmem, ?_⟩
        by_cases hk : f = a
        · subst hk
          have hwv : w = valOf f := hinv (f, w) hmem
          simp [hwv]
        · simp [hk]
      · obtain ⟨p, hp, hpk⟩ := List.any_eq_true.mp hany
        refine ⟨p, hp, ?_⟩
        rw [if_pos hpk, hf, hw]
  · rw [if_neg hany]
    simp [Prod.ext_iff]

/-- The `dinsert` preserves key-determined values. -/
theorem dinsert_inv (valOf : String → Taskade.FieldValue)
    (d : List (String × Taskade.FieldValue)) (a : String)
    (hinv : ∀ p ∈ d, p.2 = valOf p.1) :
    ∀ p ∈ Taskade.dinsert d a (valOf a), p.2 = valOf p.1 := by
  intro p hp
  rcases (dinsert_mem valOf d a hinv p.1 p.2).mp hp with h | ⟨h1, h2⟩
  · exact hinv _ h
  · rw [h2, h1]

/-- Characterization of the dict built by the `get_task_all_fields` fold
from an arbitrary key-determined base: a pair is present iff it was in
the base or its field is in the list with a non-null fetched value. -/
theorem fold_fields_mem (gw : Taskade.Gateway) (tid : String) :
    ∀ (fids : List String) (d : List (String × Taskade.FieldValue)),
      (∀ p ∈ d, p.2 = (Taskade.fetch_field gw tid p.1).2.1) →
      ∀ f w,
        ((f, w) ∈ (fids.map (Taskade.fetch_field gw tid)).foldl
            (fun d r => match r.2.1 with
              | .null => d
              | v => Taskade.dinsert d r.1 v) d) ↔
        ((f, w) ∈ d ∨
          (f ∈ fids ∧ (Taskade.fetch_field gw tid f).2.1 ≠ .null ∧
            w = (Taskade.fetch_field gw tid f).2.1)) := by
  intro fids
  induction fids with
  | nil => intro d hinv f w; simp
  | cons a rest ih =>
    intro d hinv f w
    have hfst := fetch_field_fst gw tid a
    simp only [List.map_cons, List.foldl_cons]
    by_cases hnull : (Taskade.fetch_field gw tid a).2.1 = .null
    · have hstep :
          (match (Taskade.fetch_field gw tid a).2.1 with
            | Taskade.FieldValue.null => d
            | v => Taskade.dinsert d (Taskade.fetch_field gw tid a).1 v) =
          d := by rw [hnull]
      rw [hstep, ih d hinv f w]
      constructor
      · rintro (h | h)
        · exact Or.inl h
        · exact Or.inr ⟨List.mem_cons_of_mem a h.1, h.2⟩
      · rintro (h | ⟨hmem, hne, hw⟩)
        · exact Or.inl h
        · rcases List.mem_cons.mp hmem with rfl | hmem'
          · exact absurd hnull hne
          · exact Or.inr ⟨hmem', hne, hw⟩
    · have hstep :
          (match (Taskade.fetch_field gw tid a).2.1 with
            | Taskade.FieldValue.null => d
            | v => Taskade.dinsert d (Taskade.fetch_field gw tid a).1 v) =
          Taskade.dinsert d a ((Taskade.fetch_field gw tid a).2.1) := by
        rw [hfst]
        cases hv : (Taskade.fetch_field gw tid a).2.1 with
        | null => exact absurd hv hnull
        | str s => rfl
        | int n => rfl
        | select o => rfl
        | datetime o => rfl
        | other r => rfl
      rw [hstep]
      have hinv' := dinsert_inv (fun fid =>
        (Taskade.fetch_field gw tid fid).2.1) d a hinv
      rw [ih _ hinv' f w]
      rw [dinsert_mem (fun fid =>
        (Taskade.fetch_field gw tid fid).2.1) d a hinv f w]
      constructor
      · rintro ((h | ⟨rfl, h2⟩) | ⟨hmem, hne, hw⟩)
        · exact Or.inl h
        · exact Or.inr ⟨List.mem_cons_self f rest, hnull, h2⟩
        · exact Or.inr ⟨List.mem_cons_of_mem a hmem, hne, hw⟩
      · rintro (h | ⟨hmem, hne, hw⟩)
        · exact Or.inl (Or.inl h)
        · rcases List.mem_cons.mp hmem with rfl | hmem'
          · exact Or.inl (Or.inr ⟨rfl, hw⟩)
          · exact Or.inr ⟨hmem', hne, hw⟩

/-- Membership in the per-task fields dict: a field appears with value
`w` iff it was requested and its unit of work produced the non-null
value `w`. -/
theorem get_task_all_fields_mem (gw : Taskade.Gateway) (tid : String)
    (fids : List String) (f : String) (w : Taskade.FieldValue) :
    ((f, w) ∈ Taskade.get_task_all_fields gw tid fids) ↔
      (f ∈ fids ∧ (Taskade.fetch_field gw tid f).2.1 ≠ .null ∧
        w = (Taskade.fetch_field gw tid f).2.1) := by
  have h := fold_fields_mem gw tid fids [] (by simp) f w
  unfold Taskade.get_task_all_fields
  rw [h]
  simp

/-- Two gateways whose units of work agree (or both produce `None`) on
every requested field build identical field dicts. -/
theorem fold_fields_congr (gw gw' : Taskade.Gateway) (tid : String) :
    ∀ (fids : List String) (d : List (String × Taskade.FieldValue)),
      (∀ fid ∈ fids,
        Taskade.fetch_field gw' tid fid = Taskade.fetch_field gw tid fid ∨
        ((Taskade.fetch_field gw' tid fid).2.1 = .null ∧
          (Taskade.fetch_field gw tid fid).2.1 = .null)) →
      (fids.map (Taskade.fetch_field gw' tid)).foldl
          (fun d r => match r.2.1 with
            | .null => d
            | v => Taskade.dinsert d r.1 v) d =
      (fids.map (Taskade.fetch_field gw tid)).foldl
          (fun d r => match r.2.1 with
            | .null => d
            | v => Taskade.dinsert d r.1 v) d := by
  intro fids
  induction fids with
  | nil => intro d _; rfl
  | cons a rest ih =>
    intro d h
    simp only [List.map_cons, List.foldl_cons]
    have hstep :
        (match (Taskade.fetch_field gw' tid a).2.1 with
          | Taskade.FieldValue.null => d
          | v => Taskade.dinsert d (Taskade.fetch_field gw' tid a).1 v) =
        (match (Taskade.fetch_field gw tid a).2.1 with
          | Taskade.FieldValue.null => d
          | v => Taskade.dinsert d (Taskade.fetch_field gw tid a).1 v) := by
      rcases h a (List.mem_cons_self a rest) with heq | ⟨h1, h2⟩
      · rw [heq]
      · rw [h1, h2]
    rw [hstep]
    exact ih _ (fun fid hf => h fid (List.mem_cons_of_mem a hf))

/-- C5 (amended): for every `(task, field)` unit, a first attempt that
succeeds is returned as-is (no retry); a first attempt that fails with a
rate-limit (429) message is retried exactly once — a successful retry
yields the retried value, a failed retry yields `None` with the retry's
error; the unit's outcome depends only on the first two attempts (no
second retry ever occurs); at the task level, a rate-limited unit whose
retry succeeds with a *non-null* value appears in the final fields dict
with that value, and one whose retry fails is dropped.  (The
counterexample `c5_retry_counterexample` shows why the non-null proviso
is needed: a retry that succeeds with a null value is also dropped.) -/
theorem c5_rate_limit_retry (gw gw' : Taskade.Gateway) (t f : String)
    (fids : List String) :
    (∀ v, gw t f 0 = .ok v → Taskade.fetch_field gw t f = (f, v, none)) ∧
    (∀ m v, gw t f 0 = .err m → Taskade.contains429 m = true →
      gw t f 1 = .ok v → Taskade.fetch_field gw t f = (f, v, none)) ∧
    (∀ m m2, gw t f 0 = .err m → Taskade.contains429 m = true →
      gw t f 1 = .err m2 →
      Taskade.fetch_field gw t f = (f, .null, some m2)) ∧
    ((∀ n, n < 2 → gw' t f n = gw t f n) →
      Taskade.fetch_field gw' t f = Taskade.fetch_field gw t f) ∧
    (∀ m v, f ∈ fids → gw t f 0 = .err m → Taskade.contains429 m = true →
      gw t f 1 = .ok v → v ≠ .null →
      (f, v) ∈ Taskade.get_task_all_fields gw t fids) ∧
    (∀ m m2 w, gw t f 0 = .err m → Taskade.contains429 m = true →
      gw t f 1 = .err m2 →
      (f, w) ∉ Taskade.get_task_all_fields gw t fids) := by
  refine ⟨?_, ?_, ?_, ?_, ?_, ?_⟩
  · intro v h
    unfold Taskade.fetch_field
    rw [h]
  · intro m v h0 h429 h1
    simp [Taskade.fetch_field, h0, h429, h1]
  · intro m m2 h0 h429 h1
    simp [Taskade.fetch_field, h0, h429, h1]
  · intro hagree
    unfold Taskade.fetch_field
    rw [hagree 0 (by omega), hagree 1 (by omega)]
  · intro m v hmem h0 h429 h1 hnn
    have hval : (Taskade.fetch_field gw t f).2.1 = v := by
      simp [Taskade.fetch_field, h0, h429, h1]
    exact (get_task_all_fields_mem gw t fids f v).mpr
      ⟨hmem, by rw [hval]; exact hnn, hval.symm⟩
  · intro m m2 w h0 h429 h1 hmem
    have hval : (Taskade.fetch_field gw t f).2.1 = .null := by
      simp [Taskade.fetch_field, h0, h429, h1]
    exact ((get_task_all_fields_mem gw t fids f w).mp hmem).2.1 hval

/-- C5 counterexample: the claim as stated fails when the retry
"succeeds" with a null value — the first attempt is rate-limited, the
retry succeeds, yet the field does not appear in the final result. -/
theorem c5_retry_counterexample :
    (fun (_ _ : String) (n : Nat) =>
        if n == 0 then Taskade.Attempt.err "HTTP 429"
        else Taskade.Attempt.ok Taskade.FieldValue.null) "T" "F" 0 =
      Taskade.Attempt.err "HTTP 429" ∧
    Taskade.contains429 "HTTP 429" = true ∧
    (fun (_ _ : String) (n : Nat) =>
        if n == 0 then Taskade.Attempt.err "HTTP 429"
        else Taskade.Attempt.ok Taskade.FieldValue.null) "T" "F" 1 =
      Taskade.Attempt.ok Taskade.FieldValue.null ∧
    Taskade.get_task_all_fields
      (fun (_ _ : String) (n : Nat) =>
        if n == 0 then Taskade.Attempt.err "HTTP 429"
        else Taskade.Attempt.ok Taskade.FieldValue.null) "T" ["F"] = [] :=
  ⟨rfl, by decide, rfl, rfl⟩

/-- C5 witness: a unit that is rate-limited once and then succeeds with a
string value appears in the final result with the retried value. -/
theorem c5_rate_limit_retry_witness :
    Taskade.fetch_field
        (fun (_ _ : String) (n : Nat) =>
          if n == 0 then Taskade.Attempt.err "HTTP 429"
          else Taskade.Attempt.ok (Taskade.FieldValue.str "v")) "T" "F" =
      ("F", Taskade.FieldValue.str "v", none) ∧
    ("F", Taskade.FieldValue.str "v") ∈
      Taskade.get_task_all_fields
        (fun (_ _ : String) (n : Nat) =>
          if n == 0 then Taskade.Attempt.err "HTTP 429"
          else Taskade.Attempt.ok (Taskade.FieldValue.str "v")) "T" ["F"] :=
  ⟨(c5_rate_limit_retry
      (fun (_ _ : String) (n : Nat) =>
        if n == 0 then Taskade.Attempt.err "HTTP 429"
        else Taskade.Attempt.ok (Taskade.FieldValue.str "v"))
      (fun (_ _ : String) (n : Nat) =>
        if n == 0 then Taskade.Attempt.err "HTTP 429"
        else Taskade.Attempt.ok (Taskade.FieldValue.str "v"))
      "T" "F" ["F"]).2.1 "HTTP 429" (Taskade.FieldValue.str "v") rfl
      (by decide) rfl,
   (c5_rate_limit_retry
      (fun (_ _ : String) (n : Nat) =>
        if n == 0 then Taskade.Attempt.err "HTTP 429"
        else Taskade.Attempt.ok (Taskade.FieldValue.str "v"))
      (fun (_ _ : String) (n : Nat) =>
        if n == 0 then Taskade.Attempt.err "HTTP 429"
        else Taskade.Attempt.ok (Taskade.FieldValue.str "v"))
      "T" "F" ["F"]).2.2.2.2.1 "HTTP 429" (Taskade.FieldValue.str "v")
      (by decide) rfl (by decide) rfl (by decide)⟩

/-- C10: a `(task, field)` unit whose fetch succeeds but returns a null
value is omitted from the task's fields dict, and the result is
indistinguishable from that of a gateway in which the same unit fails
permanently with a non-rate-limit error. -/
theorem c10_null_drop (gw gw' : Taskade.Gateway) (t f : String)
    (fids : List String) (m : String)
    (hnull : gw t f 0 = .ok .null)
    (hagree : ∀ fid, fid ≠ f → ∀ n, gw' t fid n = gw t fid n)
    (hfail : gw' t f 0 = .err m) (hm : Taskade.contains429 m = false) :
    (∀ w, (f, w) ∉ Taskade.get_task_all_fields gw t fids) ∧
    Taskade.get_task_all_fields gw' t fids =
      Taskade.get_task_all_fields gw t fids := by
  have hv : (Taskade.fetch_field gw t f).2.1 = .null := by
    simp [Taskade.fetch_field, hnull]
  have hv' : (Taskade.fetch_field gw' t f).2.1 = .null := by
    simp [Taskade.fetch_field, hfail, hm]
  constructor
  · intro w hw
    exact ((get_task_all_fields_mem gw t fids f w).mp hw).2.1 hv
  · unfold Taskade.get_task_all_fields
    refine fold_fields_congr gw gw' t fids [] ?_
    intro fid _
    by_cases hf : fid = f
    · subst hf
      exact Or.inr ⟨hv', hv⟩
    · refine Or.inl ?_
      unfold Taskade.fetch_field
      rw [hagree fid hf 0, hagree fid hf 1]

/-- C10 witness: with one null-success field and one real field, the
null field is absent and the result equals that of a permanently failing
gateway. -/
theorem c10_null_drop_witness :
    (∀ w, ("F", w) ∉ Taskade.get_task_all_fields
      (fun (_ fid : String) (_ : Nat) =>
        if fid == "F" then Taskade.Attempt.ok Taskade.FieldValue.null
        else Taskade.Attempt.ok (Taskade.FieldValue.str "x"))
      "T" ["F", "G"]) ∧
    Taskade.get_task_all_fields
        (fun (_ fid : String) (_ : Nat) =>
          if fid == "F" then Taskade.Attempt.err "HTTP 500"
          else Taskade.Attempt.ok (Taskade.FieldValue.str "x"))
        "T" ["F", "G"] =
      Taskade.get_task_all_fields
        (fun (_ fid : String) (_ : Nat) =>
          if fid == "F" then Taskade.Attempt.ok Taskade.FieldValue.null
          else Taskade.Attempt.ok (Taskade.FieldValue.str "x"))
        "T" ["F", "G"] :=
  c10_null_drop
    (fun (_ fid : String) (_ : Nat) =>
      if fid == "F" then Taskade.Attempt.ok Taskade.FieldValue.null
      else Taskade.Attempt.ok (Taskade.FieldValue.str "x"))
    (fun (_ fid : String) (_ : Nat) =>
      if fid == "F" then Taskade.Attempt.err "HTTP 500"
      else Taskade.Attempt.ok (Taskade.FieldValue.str "x"))
    "T" "F" ["F", "G"] "HTTP 500" rfl
    (fun fid hf n => by simp [hf]) rfl (by decide)

/-- Under the C1 stub, the value produced by a unit of work is the
stubbed value for non-failing pairs and `None` for permanently failing
ones. -/
theorem fetch_field_stub_val (gw : Taskade.Gateway)
    (fails : String → String → Bool)
    (val : String → String → Taskade.FieldValue)
    (hfail : ∀ tid fid n, fails tid fid = true → ∃ m, gw tid fid n = .err m)
    (hok : ∀ tid fid, fails tid fid = false → gw tid fid 0 = .ok (val tid fid))
    (tid fid : String) :
    (Taskade.fetch_field gw tid fid).2.1 =
      if fails tid fid then Taskade.FieldValue.null else val tid fid := by
  by_cases h : fails tid fid = true
  · obtain ⟨m, hm⟩ := hfail tid fid 0 h
    rw [if_pos h]
    by_cases h429 : Taskade.contains429 m = true
    · obtain ⟨m2, hm2⟩ := hfail tid fid 1 h
      simp [Taskade.fetch_field, hm, h429, hm2]
    · simp [Taskade.fetch_field, hm, h429]
  · rw [if_neg h]
    simp [Taskade.fetch_field, hok tid fid (by simpa using h)]

/-- C1: against a stubbed gateway where the task-list fetch succeeds with
`raw`, a configurable set of `(task, field)` pairs fails permanently
(every attempt raises) and every other pair succeeds with a (non-null)
stubbed value, the aggregation returns exactly the tasks of the initial
task list — same ids and names, in order, never more — and each task's
fields dict contains exactly the requested fields whose fetch did not
permanently fail, with their stubbed values. -/
theorem c1_aggregator (la : Nat → Except String (List Taskade.Task))
    (gw : Taskade.Gateway) (raw : List Taskade.Task) (fids : List String)
    (fails : String → String → Bool)
    (val : String → String → Taskade.FieldValue)
    (hla : la 0 = .ok raw)
    (hfail : ∀ tid fid n, fails tid fid = true → ∃ m, gw tid fid n = .err m)
    (hok : ∀ tid fid, fails tid fid = false →
      gw tid fid 0 = .ok (val tid fid))
    (hnn : ∀ tid fid, val tid fid ≠ .null) :
    ∃ L, Taskade.fetch_all_entities_with_fields la gw fids = .ok L ∧
      L.map (·.task_id) =
        (Taskade.extract_all_tasks raw).map Taskade.Task.id ∧
      L.map (·.task_name) =
        (Taskade.extract_all_tasks raw).map Taskade.Task.text ∧
      ∀ r ∈ L, ∀ f v,
        ((f, v) ∈ r.fields ↔
          (f ∈ fids ∧ fails r.task_id f = false ∧ v = val r.task_id f)) := by
  refine ⟨(Taskade.extract_all_tasks raw).map (fun t =>
    Taskade.TaskFields.mk t.id t.text
      (Taskade.get_task_all_fields gw t.id fids)), ?_, ?_, ?_, ?_⟩
  · simp [Taskade.fetch_all_entities_with_fields, hla, Except.map]
  · rw [List.map_map]; rfl
  · rw [List.map_map]; rfl
  · intro r hr f v
    obtain ⟨t, _, rfl⟩ := List.mem_map.mp hr
    have hmem := get_task_all_fields_mem gw t.id fids f v
    have hval := fetch_field_stub_val gw fails val hfail hok t.id f
    show (f, v) ∈ Taskade.get_task_all_fields gw t.id fids ↔ _
    rw [hmem, hval]
    by_cases hfl : fails t.id f = true
    · simp [hfl]
    · have hfl' : fails t.id f = false := by simpa using hfl
      simp [hfl', hnn t.id f]

/-- A concrete C1 stub gateway: field `"G"` fails permanently on every
attempt, everything else succeeds with a string value. -/
def c1gw : Taskade.Gateway := fun _ fid _ =>
  if fid == "G" then .err "boom" else .ok (.str "x")

/-- C1 witness: instantiation at one task and two fields, one of which
fails permanently. -/
theorem c1_aggregator_witness :
    ∃ L, Taskade.fetch_all_entities_with_fields
        (fun _ => Except.ok [Taskade.Task.mk "T1" "A" []]) c1gw
        ["F", "G"] = Except.ok L ∧
      L.map (·.task_id) =
        (Taskade.extract_all_tasks
          [Taskade.Task.mk "T1" "A" []]).map Taskade.Task.id ∧
      L.map (·.task_name) =
        (Taskade.extract_all_tasks
          [Taskade.Task.mk "T1" "A" []]).map Taskade.Task.text ∧
      ∀ r ∈ L, ∀ f v,
        ((f, v) ∈ r.fields ↔
          (f ∈ ["F", "G"] ∧
            (fun (_ fid : String) => fid == "G") r.task_id f = false ∧
            v = (fun (_ _ : String) =>
              Taskade.FieldValue.str "x") r.task_id f)) :=
  c1_aggregator (fun _ => Except.ok [Taskade.Task.mk "T1" "A" []]) c1gw
    [Taskade.Task.mk "T1" "A" []] ["F", "G"]
    (fun _ fid => fid == "G") (fun _ _ => Taskade.FieldValue.str "x") rfl
    (fun tid fid n h => ⟨"boom", by simp [c1gw, h]⟩)
    (fun tid fid h => by simp [c1gw, h])
    (fun _ _ => by simp)

def sampleContent : String :=
  "# Acme LLC\n\n## Basic Information\n- **Entity ID**: E1\n- **Type**: LLC\n- **Status**: Active\n- **Jurisdiction**: WY\n- **Formation Date**: 2020-03-15\n- **Filing ID**: F123\n- **EIN**: 12-3456789\n\n## Addresses\n**Legal Address**: 123 Main, Cody, WY 82414\n\n## Notes\nhello\n"

/-- The entity that `sampleContent` parses to (note: the markdown format
carries no audit dates, so `created_date`/`modified_date` are `None`). -/
def sampleEntity : Entity :=
  Entity.mk "Acme LLC" "LLC" "WY" "Active" (some "2020-03-15")
    (some "F123") (some "12-3456789") (some "123 Main, Cody, WY 82414")
    none none none (some "hello") "E1" "T1" none none

/-- The `sampleEntity` after an update at time 100: only `modified_date`
restamped. -/
def sampleUpdated : Entity :=
  { sampleEntity with modified_date := some "100" }

/-- A gateway whose every fetch fails (the CRUD paths never consult it). -/
def deadGw : Taskade.Gateway := fun _ _ _ => .err "offline"

/-- An empty dashboard snapshot, used as a pre-existing cache entry. -/
def emptyDR : DashboardResponse :=
  DashboardResponse.mk (DashboardStats.mk 0 0 0 0 0) []
    (CacheMetadata.mk none true 0)

/-- A concrete world: one stored entity task, a filled cache. -/
def svcWorld : World :=
  World.mk [Taskade.Task.mk "T1" sampleContent []] 5
    (EntityCache.mk (some (CacheEntry.mk emptyDR 0 300)) 300) 100 deadGw

theorem extract_single (i x : String) :
    Taskade.extract_all_tasks [Taskade.Task.mk i x []] =
      [Taskade.Task.mk i x []] := by
  simp [Taskade.extract_all_tasks]

set_option maxRecDepth 10000 in
theorem svcWorld_get_all : EntityService.get_all svcWorld = [sampleEntity] := by
  unfold EntityService.get_all
  rw [show svcWorld.tasks = [Taskade.Task.mk "T1" sampleContent []] from rfl,
    extract_single]
  rfl

theorem svcWorld_get_by_id :
    EntityService.get_by_id svcWorld "E1" = some sampleEntity := by
  unfold EntityService.get_by_id
  rw [svcWorld_get_all]
  rfl

theorem svcWorld_get_by_id_absent :
    EntityService.get_by_id svcWorld "ZZZ" = none := by
  unfold EntityService.get_by_id
  rw [svcWorld_get_all]
  rfl

/-- Unfolding of a successful `update` run. -/
theorem update_run (w : World) (eid : String) (u : EntityUpdate)
    (existing e : Entity)
    (hget : EntityService.get_by_id w eid = some existing)
    (hmk : mkEntity { mergeUpdate existing.dump u with
      modified_date := some (some (isoOfTime w.time)) } = some e) :
    EntityService.update w eid u =
      (Except.ok e,
        { w with
          tasks := update_task_forest w.tasks existing.taskade_task_id
            (entity_to_markdown { mergeUpdate existing.dump u with
              modified_date := some (some (isoOfTime w.time)) })
          cache := w.cache.invalidate }) := by
  unfold EntityService.update
  rw [hget]
  simp only [hmk]

/-- Unfolding of a successful `delete` run. -/
theorem delete_run (w : World) (eid : String) (existing : Entity)
    (hget : EntityService.get_by_id w eid = some existing) :
    EntityService.delete w eid =
      (Except.ok (),
        { w with
          tasks := delete_task_forest w.tasks existing.taskade_task_id
          cache := w.cache.invalidate }) := by
  unfold EntityService.delete
  rw [hget]

/-- An empty cache always misses. -/
theorem cache_get_none {α : Type} (c : EntityCache α) (h : c.data = none) :
    ∀ t, c.get t = none := by
  intro t
  simp [EntityCache.get, EntityCache.is_valid, h]

/-- C3: after every successful `create`, `update` or `delete` of the
entity service, the dashboard cache is empty and the next `get()` — at
any time — is a miss, regardless of the cache's prior state. -/
theorem c3_mutations_invalidate (w : World) :
    (∀ inp e w2, EntityService.create w inp = (Except.ok e, w2) →
      w2.cache.data = none ∧ ∀ t, w2.cache.get t = none) ∧
    (∀ eid u e w2, EntityService.update w eid u = (Except.ok e, w2) →
      w2.cache.data = none ∧ ∀ t, w2.cache.get t = none) ∧
    (∀ eid w2, EntityService.delete w eid = (Except.ok (), w2) →
      w2.cache.data = none ∧ ∀ t, w2.cache.get t = none) := by
  refine ⟨?_, ?_, ?_⟩
  · intro inp e w2 h
    simp only [EntityService.create] at h
    split at h
    · rw [Prod.ext_iff] at h
      obtain ⟨-, h2⟩ := h
      subst h2
      exact ⟨rfl, cache_get_none _ rfl⟩
    · rw [Prod.ext_iff] at h
      exact absurd h.1 (by simp)
  · intro eid u e w2 h
    simp only [EntityService.update] at h
    split at h
    · rw [Prod.ext_iff] at h
      exact absurd h.1 (by simp)
    · split at h
      · rw [Prod.ext_iff] at h
        obtain ⟨-, h2⟩ := h
        subst h2
        exact ⟨rfl, cache_get_none _ rfl⟩
      · rw [Prod.ext_iff] at h
        exact absurd h.1 (by simp)
  · intro eid w2 h
    simp only [EntityService.delete] at h
    split at h
    · rw [Prod.ext_iff] at h
      exact absurd h.1 (by simp)
    · rw [Prod.ext_iff] at h
      obtain ⟨-, h2⟩ := h
      subst h2
      exact ⟨rfl, cache_get_none _ rfl⟩

/-- A valid create request for the witness. -/
def c3Input : EntityCreate :=
  { entity_name := "NewCo", entity_type := "LLC", jurisdiction := "WY" }

set_option maxRecDepth 10000 in
/-- C3 witness: concrete successful create, update and delete runs on a
world whose cache held an entry; afterwards the cache misses. -/
theorem c3_mutations_invalidate_witness :
    ((EntityService.create svcWorld c3Input).2.cache.data = none ∧
      ∀ t, (EntityService.create svcWorld c3Input).2.cache.get t = none) ∧
    ((EntityService.update svcWorld "E1" {}).2.cache.data = none ∧
      ∀ t, (EntityService.update svcWorld "E1" {}).2.cache.get t = none) ∧
    ((EntityService.delete svcWorld "E1").2.cache.data = none ∧
      ∀ t, (EntityService.delete svcWorld "E1").2.cache.get t = none) := by
  have hupd := update_run svcWorld "E1" {} sampleEntity sampleUpdated
    svcWorld_get_by_id (by rfl)
  have hdel := delete_run svcWorld "E1" sampleEntity svcWorld_get_by_id
  refine ⟨?_, ?_, ?_⟩
  · obtain ⟨e0, he⟩ :
        ∃ e0, (EntityService.create svcWorld c3Input).1 = Except.ok e0 :=
      ⟨_, rfl⟩
    exact (c3_mutations_invalidate svcWorld).1 c3Input e0 _ (by rw [← he])
  · rw [hupd]
    exact (c3_mutations_invalidate svcWorld).2.1 "E1" {} sampleUpdated _ hupd
  · rw [hdel]
    exact (c3_mutations_invalidate svcWorld).2.2 "E1" _ hdel

/-- The `getOpt` of a present key returns the stored optional value. -/
theorem getOpt_some (o : Option String) : getOpt (some o) = o := by
  cases o <;> rfl

/-- Inversion of the final construction step: what every field of a
constructed entity is. -/
theorem mkEntityIds_inv (p : PartialEntity) (nm ty ju st : String)
    (fd : Option String) (e : Entity)
    (h : mkEntityIds p nm ty ju st fd = some e) :
    e.entity_name = nm ∧ e.entity_type = ty ∧ e.jurisdiction = ju ∧
    e.status = st ∧ e.formation_date = fd ∧
    e.filing_id = getOpt p.filing_id ∧ e.ein = getOpt p.ein ∧
    e.legal_address = getOpt p.legal_address ∧
    e.legal_city = getOpt p.legal_city ∧
    e.legal_state = getOpt p.legal_state ∧
    e.legal_zip = getOpt p.legal_zip ∧ e.notes = getOpt p.notes ∧
    e.created_date = getOpt p.created_date ∧
    e.modified_date = getOpt p.modified_date ∧
    p.entity_id = some (some e.entity_id) ∧
    p.taskade_task_id = some (some e.taskade_task_id) := by
  unfold mkEntityIds at h
  split at h
  · split at h
    · injection h with h'
      subst h'
      refine ⟨rfl, rfl, rfl, rfl, rfl, rfl, rfl, rfl, rfl, rfl, rfl, rfl,
        rfl, rfl, ?_, ?_⟩ <;> assumption
    · exact absurd h (by simp)
  · exact absurd h (by simp)

/-- Inversion of the `formation_date` validation step. -/
theorem mkEntityDated_inv (p : PartialEntity) (nm ty ju st : String)
    (e : Entity) (h : mkEntityDated p nm ty ju st = some e) :
    ∃ fd, mkEntityIds p nm ty ju st fd = some e ∧
      (p.formation_date = some fd ∨
        (p.formation_date = none ∧ fd = none)) := by
  unfold mkEntityDated at h
  split at h
  · rename_i s heq
    split at h
    · exact ⟨some s, h, Or.inl heq⟩
    · exact absurd h (by simp)
  · rename_i heq
    exact ⟨none, h, Or.inl heq⟩
  · rename_i heq
    exact ⟨none, h, Or.inr ⟨heq, rfl⟩⟩

/-- Inversion of `Entity(**data)`: every field of the result in terms of
the input dict. -/
theorem mkEntity_inv (p : PartialEntity) (e : Entity)
    (h : mkEntity p = some e) :
    p.entity_name = some (some e.entity_name) ∧
    p.entity_type = some (some e.entity_type) ∧
    p.jurisdiction = some (some e.jurisdiction) ∧
    (p.status = some (some e.status) ∨
      (p.status = none ∧ e.status = "Active")) ∧
    (p.formation_date = some e.formation_date ∨
      (p.formation_date = none ∧ e.formation_date = none)) ∧
    e.filing_id = getOpt p.filing_id ∧ e.ein = getOpt p.ein ∧
    e.legal_address = getOpt p.legal_address ∧
    e.legal_city = getOpt p.legal_city ∧
    e.legal_state = getOpt p.legal_state ∧
    e.legal_zip = getOpt p.legal_zip ∧ e.notes = getOpt p.notes ∧
    e.created_date = getOpt p.created_date ∧
    e.modified_date = getOpt p.modified_date ∧
    p.entity_id = some (some e.entity_id) ∧
    p.taskade_task_id = some (some e.taskade_task_id) := by
  unfold mkEntity at h
  split at h
  case _ nm hnm =>
    split at h
    · split at h
      case _ ty hty =>
        split at h
        · split at h
          case _ ju hju =>
            split at h
            · split at h
              case _ hst =>
                obtain ⟨fd, hids, hfd⟩ := mkEntityDated_inv _ _ _ _ _ _ h
                obtain ⟨h1, h2, h3, h4, h5, hrest⟩ := mkEntityIds_inv _ _ _ _ _ _ _ hids
                subst h1; subst h2; subst h3; subst h5
                exact ⟨hnm, hty, hju, Or.inr ⟨hst, h4⟩, hfd, hrest⟩
              case _ st hst =>
                split at h
                · obtain ⟨fd, hids, hfd⟩ := mkEntityDated_inv _ _ _ _ _ _ h
                  obtain ⟨h1, h2, h3, h4, h5, hrest⟩ :=
                    mkEntityIds_inv _ _ _ _ _ _ _ hids
                  subst h1; subst h2; subst h3; subst h4; subst h5
                  exact ⟨hnm, hty, hju, Or.inl hst, hfd, hrest⟩
                · exact absurd h (by simp)
              case _ hst => exact absurd h (by simp)
            · exact absurd h (by simp)
          case _ hju _ => exact absurd h (by simp)
        · exact absurd h (by simp)
      case _ hty _ => exact absurd h (by simp)
    · exact absurd h (by simp)
  case _ hnm _ => exact absurd h (by simp)

/-- Unfolding of an `update` run whose re-validation fails. -/
theorem update_run_fail (w : World) (eid : String) (u : EntityUpdate)
    (existing : Entity)
    (hget : EntityService.get_by_id w eid = some existing)
    (hmk : mkEntity { mergeUpdate existing.dump u with
      modified_date := some (some (isoOfTime w.time)) } = none) :
    (EntityService.update w eid u).1 = Except.error "validation error" := by
  unfold EntityService.update
  rw [hget]
  simp only [hmk]

/-- C8 (amended): `update` fails with `NotFound` (leaving the world
unchanged) when the entity id is absent; otherwise, on success, every
field of the existing record that was not explicitly set in the update
request keeps its previous value — *except* `modified_date`, which is
always restamped to the update time (the system fields `entity_id`,
`taskade_task_id` and `created_date`, which the update request cannot
carry, are always preserved). -/
theorem c8_update_frame (w : World) (eid : String) (u : EntityUpdate) :
    (EntityService.get_by_id w eid = none →
      EntityService.update w eid u =
        (Except.error ("Entity not found: " ++ eid), w)) ∧
    (∀ existing e, EntityService.get_by_id w eid = some existing →
      (EntityService.update w eid u).1 = Except.ok e →
      (u.entity_name = none → e.entity_name = existing.entity_name) ∧
      (u.entity_type = none → e.entity_type = existing.entity_type) ∧
      (u.jurisdiction = none → e.jurisdiction = existing.jurisdiction) ∧
      (u.status = none → e.status = existing.status) ∧
      (u.formation_date = none →
        e.formation_date = existing.formation_date) ∧
      (u.filing_id = none → e.filing_id = existing.filing_id) ∧
      (u.ein = none → e.ein = existing.ein) ∧
      (u.legal_address = none → e.legal_address = existing.legal_address) ∧
      (u.legal_city = none → e.legal_city = existing.legal_city) ∧
      (u.legal_state = none → e.legal_state = existing.legal_state) ∧
      (u.legal_zip = none → e.legal_zip = existing.legal_zip) ∧
      (u.notes = none → e.notes = existing.notes) ∧
      e.entity_id = existing.entity_id ∧
      e.taskade_task_id = existing.taskade_task_id ∧
      e.created_date = existing.created_date ∧
      e.modified_date = some (isoOfTime w.time)) := by
  constructor
  · intro hget
    unfold EntityService.update
    rw [hget]
  · intro existing e hget h
    cases hmkc : mkEntity { mergeUpdate existing.dump u with
        modified_date := some (some (isoOfTime w.time)) } with
    | none =>
      rw [update_run_fail w eid u existing hget hmkc] at h
      exact absurd h (by simp)
    | some e2 =>
      rw [update_run w eid u existing e2 hget hmkc] at h
      have he : e2 = e := by simpa using h
      subst he
      obtain ⟨i1, i2, i3, i4, i5, i6, i7, i8, i9, i10, i11, i12, i13, i14,
        i15, i16⟩ := mkEntity_inv _ _ hmkc
      refine ⟨?_, ?_, ?_, ?_, ?_, ?_, ?_, ?_, ?_, ?_, ?_, ?_, ?_, ?_, ?_,
        ?_⟩
      · intro hu
        have j : updKey u.entity_name (some (some existing.entity_name)) =
            some (some e2.entity_name) := i1
        rw [hu] at j
        simp [updKey] at j
        exact j.symm
      · intro hu
        have j : updKey u.entity_type (some (some existing.entity_type)) =
            some (some e2.entity_type) := i2
        rw [hu] at j
        simp [updKey] at j
        exact j.symm
      · intro hu
        have j : updKey u.jurisdiction
            (some (some existing.jurisdiction)) =
            some (some e2.jurisdiction) := i3
        rw [hu] at j
        simp [updKey] at j
        exact j.symm
      · intro hu
        have j : (updKey u.status (some (some existing.status)) =
            some (some e2.status)) ∨
            (updKey u.status (some (some existing.status)) = none ∧
              e2.status = "Active") := i4
        rw [hu] at j
        simp [updKey] at j
        exact j.symm
      · intro hu
        have j : (updKey u.formation_date
              (some existing.formation_date) =
            some e2.formation_date) ∨
            (updKey u.formation_date (some existing.formation_date) =
              none ∧ e2.formation_date = none) := i5
        rw [hu] at j
        simp [updKey] at j
        exact j.symm
      · intro hu
        have j : e2.filing_id =
            getOpt (updKey u.filing_id (some existing.filing_id)) := i6
        rw [hu] at j
        simp [updKey, getOpt_some] at j
        exact j
      · intro hu
        have j : e2.ein = getOpt (updKey u.ein (some existing.ein)) := i7
        rw [hu] at j
        simp [updKey, getOpt_some] at j
        exact j
      · intro hu
        have j : e2.legal_address =
            getOpt (updKey u.legal_address
              (some existing.legal_address)) := i8
        rw [hu] at j
        simp [updKey, getOpt_some] at j
        exact j
      · intro hu
        have j : e2.legal_city =
            getOpt (updKey u.legal_city (some existing.legal_city)) := i9
        rw [hu] at j
        simp [updKey, getOpt_some] at j
        exact j
      · intro hu
        have j : e2.legal_state =
            getOpt (updKey u.legal_state (some existing.legal_state)) :=
          i10
        rw [hu] at j
        simp [updKey, getOpt_some] at j
        exact j
      · intro hu
        have j : e2.legal_zip =
            getOpt (updKey u.legal_zip (some existing.legal_zip)) := i11
        rw [hu] at j
        simp [updKey, getOpt_some] at j
        exact j
      · intro hu
        have j : e2.notes =
            getOpt (updKey u.notes (some existing.notes)) := i12
        rw [hu] at j
        simp [updKey, getOpt_some] at j
        exact j
      · have j : (some (some existing.entity_id) :
            Option (Option String)) = some (some e2.entity_id) := i15
        simpa using j.symm
      · have j : (some (some existing.taskade_task_id) :
            Option (Option String)) = some (some e2.taskade_task_id) := i16
        simpa using j.symm
      · have j : e2.created_date =
            getOpt (some existing.created_date) := i13
        rw [getOpt_some] at j
        exact j
      · have j : e2.modified_date =
            getOpt (some (some (isoOfTime w.time))) := i14
        simpa using j

set_option maxRecDepth 10000 in
/-- C8 counterexample: the claim as stated fails at a concrete successful
update with an *empty* update request (no field explicitly set): the
resulting entity's `modified_date` differs from the existing record's,
although `modified_date` was not set in the request. -/
theorem c8_update_frame_counterexample :
    EntityService.get_by_id svcWorld "E1" = some sampleEntity ∧
    (EntityService.update svcWorld "E1" ({} : EntityUpdate)).1 =
      Except.ok sampleUpdated ∧
    ({} : EntityUpdate) =
      EntityUpdate.mk none none none none none none none none none none
        none none ∧
    sampleUpdated.modified_date ≠ sampleEntity.modified_date := by
  refine ⟨svcWorld_get_by_id, ?_, rfl, by simp [sampleUpdated, sampleEntity]⟩
  rw [update_run svcWorld "E1" {} sampleEntity sampleUpdated
    svcWorld_get_by_id (by rfl)]

set_option maxRecDepth 10000 in
/-- C8 witness: the `NotFound` branch at an absent id, and the frame
conclusions at a concrete successful empty update. -/
theorem c8_update_frame_witness :
    EntityService.update svcWorld "ZZZ" ({} : EntityUpdate) =
      (Except.error ("Entity not found: " ++ "ZZZ"), svcWorld) ∧
    sampleUpdated.entity_name = sampleEntity.entity_name ∧
    sampleUpdated.notes = sampleEntity.notes ∧
    sampleUpdated.entity_id = sampleEntity.entity_id ∧
    sampleUpdated.created_date = sampleEntity.created_date ∧
    sampleUpdated.modified_date = some (isoOfTime svcWorld.time) := by
  have hok : (EntityService.update svcWorld "E1" ({} : EntityUpdate)).1 =
      Except.ok sampleUpdated := by
    rw [update_run svcWorld "E1" {} sampleEntity sampleUpdated
      svcWorld_get_by_id (by rfl)]
  have h2 := (c8_update_frame svcWorld "E1" ({} : EntityUpdate)).2
    sampleEntity sampleUpdated svcWorld_get_by_id hok
  exact ⟨(c8_update_frame svcWorld "ZZZ" ({} : EntityUpdate)).1
      svcWorld_get_by_id_absent,
    h2.1 rfl,
    h2.2.2.2.2.2.2.2.2.2.2.2.1 rfl,
    h2.2.2.2.2.2.2.2.2.2.2.2.2.1,
    h2.2.2.2.2.2.2.2.2.2.2.2.2.2.2.1,
    h2.2.2.2.2.2.2.2.2.2.2.2.2.2.2.2⟩

/-- A forced (fresh) dashboard fetch returns the response built by
`_fetch_dashboard_data` — whose cache metadata is read from the cache
state *before* the store — and then stores that very response. -/
theorem get_dashboard_force (w : World) (d : DashboardResponse) (w2 : World)
    (h : EntityService.get_dashboard w true = (Except.ok d, w2)) :
    d.cache = EntityService.cacheMetadata w.cache w.time ∧
    w2 = { w with cache := w.cache.set d w.time } := by
  simp only [EntityService.get_dashboard] at h
  rw [if_neg (by simp)] at h
  split at h
  case _ d' heq =>
    rw [Prod.ext_iff] at h
    obtain ⟨h1, h2⟩ := h
    injection h1 with h1
    subst h1
    constructor
    · unfold EntityService.fetchDashboardData at heq
      split at heq
      · exact absurd heq (by simp)
      · injection heq with heq'
        subst heq'
        rfl
    · exact h2.symm
  case _ e heq =>
    rw [Prod.ext_iff] at h
    exact absurd h.1 (by simp)

/-- C9: a forced fresh dashboard fetch attaches cache metadata read
before the new snapshot is stored; in particular `refresh_dashboard`
(which invalidates first) always returns a response whose cache metadata
is `cached_at = None`, `is_stale = True`, `ttl_remaining_seconds = 0`,
even though the freshly built snapshot is stored in the cache
immediately afterward. -/
theorem c9_refresh_metadata (w : World) :
    (∀ d w2, EntityService.get_dashboard w true = (Except.ok d, w2) →
      d.cache = EntityService.cacheMetadata w.cache w.time ∧
      w2.cache.data =
        some (CacheEntry.mk d w.time (w.time + w.cache.ttl))) ∧
    (∀ d w2, EntityService.refresh_dashboard w = (Except.ok d, w2) →
      d.cache = CacheMetadata.mk none true 0 ∧
      w2.cache.data =
        some (CacheEntry.mk d w.time (w.time + w.cache.ttl))) := by
  constructor
  · intro d w2 h
    obtain ⟨h1, h2⟩ := get_dashboard_force w d w2 h
    exact ⟨h1, by rw [h2]; rfl⟩
  · intro d w2 h
    unfold EntityService.refresh_dashboard at h
    obtain ⟨h1, h2⟩ :=
      get_dashboard_force { w with cache := w.cache.invalidate } d w2 h
    refine ⟨?_, ?_⟩
    · rw [h1]; rfl
    · rw [h2]; rfl

/-- Aggregation over an empty task list is empty. -/
theorem fetch_all_nil (gw : Taskade.Gateway) (fids : List String) :
    Taskade.fetch_all_entities_with_fields (fun _ => Except.ok []) gw
      fids = Except.ok [] := by
  simp [Taskade.fetch_all_entities_with_fields, Taskade.extract_all_tasks,
    Except.map]

/-- The `_fetch_dashboard_data` over an empty store: zero stats, no
entities, metadata from the current cache. -/
theorem fetch_dash_empty (w : World) (h : w.tasks = []) :
    EntityService.fetchDashboardData w =
      Except.ok (DashboardResponse.mk (DashboardStats.mk 0 0 0 0 0) []
        (EntityService.cacheMetadata w.cache w.time)) := by
  unfold EntityService.fetchDashboardData
  rw [h, fetch_all_nil]
  rfl

/-- A concrete world for the C9 witness: empty store, filled cache. -/
def w9 : World :=
  World.mk [] 3 (EntityCache.mk (some (CacheEntry.mk emptyDR 0 300)) 300)
    50 deadGw

/-- The response `refresh_dashboard` builds on `w9`. -/
def d9 : DashboardResponse :=
  DashboardResponse.mk (DashboardStats.mk 0 0 0 0 0) []
    (CacheMetadata.mk none true 0)

/-- The response a forced (non-invalidating) fetch builds on `w9`. -/
def d9b : DashboardResponse :=
  DashboardResponse.mk (DashboardStats.mk 0 0 0 0 0) []
    (CacheMetadata.mk (some "0") false 250)

theorem force_w9 :
    EntityService.get_dashboard w9 true =
      (Except.ok d9b,
        { w9 with
          cache := EntityCache.mk (some (CacheEntry.mk d9b 50 350)) 300 }) := by
  have hf := fetch_dash_empty w9 rfl
  unfold EntityService.get_dashboard
  rw [if_neg (by simp)]
  dsimp only
  rw [hf]
  rfl

theorem refresh_w9 :
    EntityService.refresh_dashboard w9 =
      (Except.ok d9,
        { w9 with
          cache := EntityCache.mk (some (CacheEntry.mk d9 50 350)) 300 }) := by
  have hf := fetch_dash_empty { w9 with cache := w9.cache.invalidate } rfl
  unfold EntityService.refresh_dashboard EntityService.get_dashboard
  rw [if_neg (by simp)]
  dsimp only
  rw [hf]
  rfl

/-- C9 witness: the concrete forced fetch and refresh on `w9`. -/
theorem c9_refresh_metadata_witness :
    (d9b.cache = EntityService.cacheMetadata w9.cache w9.time ∧
      ({ w9 with
          cache := EntityCache.mk (some (CacheEntry.mk d9b 50 350)) 300 } :
        World).cache.data =
        some (CacheEntry.mk d9b w9.time (w9.time + w9.cache.ttl))) ∧
    (d9.cache = CacheMetadata.mk none true 0 ∧
      ({ w9 with
          cache := EntityCache.mk (some (CacheEntry.mk d9 50 350)) 300 } :
        World).cache.data =
        some (CacheEntry.mk d9 w9.time (w9.time + w9.cache.ttl))) :=
  ⟨(c9_refresh_metadata w9).1 d9b _ force_w9,
   (c9_refresh_metadata w9).2 d9 _ refresh_w9⟩
